import Mathlib

/-!
Shallow embedding of parse-server-mailgun's `MailgunAdapter`
(src/MailgunAdapter.js).  JavaScript values are modelled by `JSVal`,
objects by insertion-ordered association lists with `Object.assign`
semantics, and the asynchronous pipeline (`_sendMail` / `_mailGenerator`)
by pure functions with explicit cache state and an explicit trace of the
calls that cross the external boundaries (file reads, the MIME composer,
the Mailgun client, `console.error`).
-/

/-- JavaScript runtime values, restricted to the shapes the adapter manipulates. -/
inductive JSVal where
  | undefined
  | null
  | bool (b : Bool)
  | num (n : Int)
  | str (s : String)
  | arr (elems : List JSVal)
  | obj (fields : List (String × JSVal))
deriving Inhabited

/-- JavaScript truthiness of a value. -/
def JSVal.truthy : JSVal → Bool
  | .undefined => false
  | .null => false
  | .bool b => b
  | .num n => n != 0
  | .str s => s != ""
  | .arr _ => true
  | .obj _ => true

/-- `typeof v === 'string'`. -/
def JSVal.isString : JSVal → Bool
  | .str _ => true
  | _ => false

/-- `v && v.constructor === Object`: `v` is a truthy plain object. -/
def JSVal.isPlainObject : JSVal → Bool
  | .obj _ => true
  | _ => false

/-- String conversion used by property lookup and template-literal interpolation. -/
def JSVal.toKeyString : JSVal → String
  | .undefined => "undefined"
  | .null => "null"
  | .bool b => cond b "true" "false"
  | .num n => toString n
  | .str s => s
  | .arr _ => ""
  | .obj _ => "[object Object]"

/-- `a || b` on JS values. -/
def jsOr (a b : JSVal) : JSVal := if a.truthy then a else b

/-- A JavaScript object as an insertion-ordered association list. -/
abbrev VarMap := List (String × JSVal)

/-- Property lookup (`m[k]`), `none` when the key is absent. -/
def getKey (m : VarMap) (k : String) : Option JSVal :=
  (m.find? (fun p => p.1 == k)).map (fun p => p.2)

/-- Key membership test. -/
def hasKey (m : VarMap) (k : String) : Bool := m.any (fun p => p.1 == k)

/-- Property write (`m[k] = v`): updates in place, appends when absent. -/
def setKey : VarMap → String → JSVal → VarMap
  | [], k, v => [(k, v)]
  | (k0, v0) :: rest, k, v =>
    if k0 == k then (k, v) :: rest else (k0, v0) :: setKey rest k v

/-- `Object.assign(base, ext)`: writes the entries of `ext` into `base`
in order, so `ext` wins on conflicting keys. -/
def assign (base : VarMap) : VarMap → VarMap
  | [] => base
  | (k, v) :: rest => assign (setKey base k v) rest

/-- The Parse user identity handle (consumed via its `get` accessor). -/
structure User where
  username : String
  email : String
deriving Inhabited

/-- `user.get(field)` for the fields the adapter reads. -/
def User.get (u : User) : String → JSVal
  | "username" => .str u.username
  | "email" => .str u.email
  | _ => .undefined

/-- The value held by a template descriptor's `callback` property: absent,
a non-function value, or a function of the (possibly undefined) user. -/
inductive CallbackField where
  | absent
  | value (v : JSVal)
  | fn (f : Option User → JSVal)

/-- JS truthiness of the `callback` property. -/
def CallbackField.truthy : CallbackField → Bool
  | .absent => false
  | .value v => v.truthy
  | .fn _ => true

/-- `typeof callback === 'function'`. -/
def CallbackField.isFunction : CallbackField → Bool
  | .fn _ => true
  | _ => false

/-- One entry of the adapter's `templates` configuration, fields as raw
JS values so that malformed configurations are representable. -/
structure TemplateEntry where
  subject : JSVal := .undefined
  pathPlainText : JSVal := .undefined
  pathHtml : JSVal := .undefined
  extra : Option VarMap := none
  callback : CallbackField := .absent

/-- The adapter's constructor options object. -/
structure Config where
  apiKey : JSVal := .undefined
  domain : JSVal := .undefined
  fromAddress : JSVal := .undefined
  host : JSVal := .undefined
  templates : Option (List (String × TemplateEntry)) := none

/-- The error messages of src/MailgunAdapter.js (the `ERRORS` constant). -/
def ERRORS.missing_configuration : String := "MailgunAdapter requires configuration."

/-- `ERRORS.missing_mailgun_settings`. -/
def ERRORS.missing_mailgun_settings : String :=
  "MailgunAdapter requires valid API Key, domain and fromAddress."

/-- `ERRORS.bad_template_config`. -/
def ERRORS.bad_template_config : String :=
  "MailgunAdapter templates are not properly configured."

/-- `ERRORS.invalid_callback`. -/
def ERRORS.invalid_callback : String :=
  "MailgunAdapter template callback is not a function."

/-- `ERRORS.invalid_template_name`. -/
def ERRORS.invalid_template_name : String :=
  "Invalid options object: missing templateName"

/-- A constructed adapter instance (fields assigned at the end of the constructor). -/
structure Adapter where
  fromAddress : JSVal
  templates : List (String × TemplateEntry)

/-- The constructor's per-entry validation (loop body, lines 39-49):
subject and pathPlainText must be strings, a truthy non-function callback
is rejected. -/
def entryError (t : TemplateEntry) : Option String :=
  if !(t.subject.isString && t.pathPlainText.isString) then
    some ERRORS.bad_template_config
  else if t.callback.truthy && !t.callback.isFunction then
    some ERRORS.invalid_callback
  else
    none

/-- The constructor's `for..in` validation loop over the templates map:
first failing entry wins. -/
def templatesError : List (String × TemplateEntry) → Option String
  | [] => none
  | (_, t) :: rest =>
    match entryError t with
    | some e => some e
    | none => templatesError rest

/-- The `MailgunAdapter` constructor (lines 22-56): fails fast with the
first configuration error, otherwise produces the adapter instance. -/
def MailgunAdapter.construct : Option Config → Except String Adapter
  | none => .error ERRORS.missing_configuration
  | some cfg =>
    if !(cfg.apiKey.truthy && cfg.domain.truthy && cfg.fromAddress.truthy) then
      .error ERRORS.missing_mailgun_settings
    else
      match cfg.templates with
      | none => .error ERRORS.bad_template_config
      | some ts =>
        if ts.isEmpty then .error ERRORS.bad_template_config
        else
          match templatesError ts with
          | some e => .error e
          | none => .ok { fromAddress := cfg.fromAddress, templates := ts }

/-- Modelled from the spec: the external template renderer (§6) — a
black-box capability given a template string and a variable mapping,
producing rendered text, tolerant of missing keys (rendered empty).
This models the variable-interpolation form `{\x7b k \x7d}` only; sections
and unescaped interpolation are not needed by any claim. The string
rendered for a variable value. -/
def varToString : JSVal → String
  | .str s => s
  | .num n => toString n
  | .bool b => cond b "true" "false"
  | _ => ""

/-- Scans for the closing `\x7d\x7d` of an interpolation tag, returning the
tag content and the remainder. -/
def tagClose : List Char → Option (List Char × List Char)
  | [] => none
  | '}' :: '}' :: rest => some ([], rest)
  | c :: rest =>
    match tagClose rest with
    | some (tag, r) => some (c :: tag, r)
    | none => none

/-- Whitespace trim of a tag's content. -/
def trimChars (l : List Char) : List Char :=
  ((l.dropWhile Char.isWhitespace).reverse.dropWhile Char.isWhitespace).reverse

/-- Fuel-indexed interpolation pass; the fuel starts at the character count,
which every branch strictly decreases at most as fast as. -/
def renderChars (vars : VarMap) : Nat → List Char → List Char
  | 0, _ => []
  | _ + 1, [] => []
  | fuel + 1, '{' :: '{' :: rest =>
    match tagClose rest with
    | some (tag, r) =>
      (varToString ((getKey vars (String.mk (trimChars tag))).getD .undefined)).data
        ++ renderChars vars fuel r
    | none => '{' :: '{' :: renderChars vars fuel rest
  | fuel + 1, c :: rest => c :: renderChars vars fuel rest

/-- Modelled from the spec: `Mustache.render` as used at lines 140 and 149 —
interpolation of `{\x7b key \x7d}` tags against the variable mapping. -/
def Mustache.render (template : String) (vars : VarMap) : String :=
  String.mk (renderChars vars template.data.length template.data)

/-- The options object accepted by `_sendMail` (union of the direct-mode
and identity-mode shapes). -/
structure SendOptions where
  templateName : JSVal := .undefined
  direct : Bool := false
  subject : JSVal := .undefined
  fromAddress : JSVal := .undefined
  recipient : JSVal := .undefined
  «variables» : Option VarMap := none
  extra : Option VarMap := none
  link : JSVal := .undefined
  appName : JSVal := .undefined
  user : Option User := none

/-- The `args` record handed from `_sendMail` to `_mailGenerator`
(line 108): resolved template, initial variables, message skeleton, user. -/
structure MailArgs where
  templateVars : VarMap
  message : VarMap
  templateName : String
  template : TemplateEntry
  user : Option User

/-- The unknown-template error message (line 73). -/
def notFoundMsg (name : String) : String :=
  "Could not find template with name " ++ name

/-- The missing-recipient error message (line 81). -/
def noRecipientMsg (name : String) : String :=
  "Cannot send email with template " ++ name ++ " without a recipient"

/-- `this.templates[templateName]`. -/
def lookupTemplate (a : Adapter) (name : String) : Option TemplateEntry :=
  (a.templates.find? (fun p => p.1 == name)).map (fun p => p.2)

/-- The synchronous phase of `_sendMail` (lines 63-108): template-name
check, template lookup, per-mode validation, and construction of the
`args` record; every `throw` becomes an `Except.error`. -/
def sendMailSync (a : Adapter) (opts : SendOptions) : Except String MailArgs :=
  if !opts.templateName.truthy then
    .error ERRORS.invalid_template_name
  else
    let name := opts.templateName.toKeyString
    match lookupTemplate a name with
    | none => .error (notFoundMsg name)
    | some t =>
      if opts.direct then
        if !opts.recipient.truthy then
          .error (noRecipientMsg name)
        else
          .ok {
            templateVars := opts.«variables».getD []
            message := assign
              [("from", jsOr opts.fromAddress a.fromAddress),
               ("to", opts.recipient),
               ("subject", jsOr opts.subject t.subject)]
              (opts.extra.getD [])
            templateName := name
            template := t
            user := none }
      else
        match opts.user with
        | none => .error "TypeError: Cannot read property get of undefined"
        | some u =>
          .ok {
            templateVars :=
              [("link", opts.link), ("appName", opts.appName),
               ("username", u.get "username"), ("email", u.get "email")]
            message :=
              [("from", a.fromAddress), ("to", u.get "email"),
               ("subject", t.subject)]
            templateName := name
            template := t
            user := some u }

/-- `_validateUserVars` (lines 235-239): keep the result only if it is a
truthy plain object, otherwise fall back to an empty object. -/
def MailgunAdapter.validateUserVars : JSVal → VarMap
  | .obj fields => fields
  | _ => []

/-- The callback block of `_mailGenerator` (lines 119-125): when the
descriptor's callback is a function, its awaited result is validated and
merged over the variables, the callback result winning on conflicts. -/
def resolveFinalVars (t : TemplateEntry) (user : Option User) (vars : VarMap) : VarMap :=
  match t.callback with
  | .fn f => assign vars (MailgunAdapter.validateUserVars (f user))
  | _ => vars

/-- One slot of the per-instance render cache (`this.cache[templateName]`). -/
structure CacheEntry where
  text : Option String := none
  html : Option String := none
deriving Inhabited

/-- The per-instance render cache (`this.cache`, line 55). -/
abbrev Cache := List (String × CacheEntry)

/-- Cache lookup. -/
def cacheGet (c : Cache) (k : String) : Option CacheEntry :=
  (c.find? (fun p => p.1 == k)).map (fun p => p.2)

/-- Cache write: updates in place, appends when absent. -/
def cacheSet : Cache → String → CacheEntry → Cache
  | [], k, v => [(k, v)]
  | (k0, v0) :: rest, k, v =>
    if k0 == k then (k, v) :: rest else (k0, v0) :: cacheSet rest k v

/-- `!cachedTemplate[kind]` — the cached body counts as a hit only when it
is JS-truthy (a non-empty string). -/
def strHit : Option String → Option String
  | some s => if s = "" then none else some s
  | none => none

/-- The HTML half of the body-building block (lines 143-153): conditional
load/render of the HTML body followed by the merge of the descriptor's
`extra` fields. Returns the message (or load error), the cache, and the
paths handed to the file-load capability. -/
def buildHtml (fs : String → Except String String) (t : TemplateEntry)
    (name : String) (vars msg : VarMap) (cache : Cache) (ce : CacheEntry)
    (loads : List String) : Except String VarMap × Cache × List String :=
  if t.pathHtml.truthy then
    match strHit ce.html with
    | some h =>
      (.ok (assign (setKey msg "html" (.str (Mustache.render h vars))) (t.extra.getD [])),
       cache, loads)
    | none =>
      match fs t.pathHtml.toKeyString with
      | .error e => (.error e, cache, loads ++ [t.pathHtml.toKeyString])
      | .ok raw =>
        (.ok (assign (setKey msg "html" (.str (Mustache.render raw vars))) (t.extra.getD [])),
         cacheSet cache name { ce with html := some raw },
         loads ++ [t.pathHtml.toKeyString])
  else
    (.ok (assign msg (t.extra.getD [])), cache, loads)

/-- The body-building block of `_mailGenerator` (lines 127-153): install
the cache slot, load/render the plain-text body, then `buildHtml`. -/
def buildMessage (fs : String → Except String String) (t : TemplateEntry)
    (name : String) (vars msg : VarMap) (cache : Cache) :
    Except String VarMap × Cache × List String :=
  let ce := (cacheGet cache name).getD {}
  match strHit ce.text with
  | some txt =>
    buildHtml fs t name vars (setKey msg "text" (.str (Mustache.render txt vars)))
      (cacheSet cache name ce) ce []
  | none =>
    match fs t.pathPlainText.toKeyString with
    | .error e => (.error e, cacheSet cache name ce, [t.pathPlainText.toKeyString])
    | .ok raw =>
      buildHtml fs t name vars (setKey msg "text" (.str (Mustache.render raw vars)))
        (cacheSet cache name { ce with text := some raw })
        { ce with text := some raw }
        [t.pathPlainText.toKeyString]

/-- The calls a send makes across the external boundaries, in order:
paths handed to the file loader, messages handed to the MIME composer,
`(to, mime)` payloads handed to the Mailgun client, and strings handed to
`console.error`. -/
structure Trace where
  loads : List String := []
  composed : List VarMap := []
  dispatched : List (JSVal × String) := []
  logged : List String := []

/-- The external capabilities the pipeline depends on: the file loader
(`fs.readFile`, UTF-8 decoded), the MIME composer (`mailcomposer` +
`build`), and the delivery client (`mailgun.messages().sendMime`). -/
structure Capabilities where
  fsRead : String → Except String String
  compose : VarMap → Except String String
  sendMime : JSVal → String → Except String JSVal

/-- `_mailGenerator` (lines 116-178): callback merge, body building, MIME
composition, dispatch. Returns the settled result of the generator's
promise, the cache, and the boundary trace. -/
def mailGenerator (caps : Capabilities) (args : MailArgs) (cache : Cache) :
    Except String JSVal × Cache × Trace :=
  let vars := resolveFinalVars args.template args.user args.templateVars
  match buildMessage caps.fsRead args.template args.templateName vars args.message cache with
  | (.error e, c, l) => (.error e, c, { loads := l })
  | (.ok msg, c, l) =>
    match caps.compose msg with
    | .error e => (.error e, c, { loads := l, composed := [msg] })
    | .ok mime =>
      let toVal := (getKey msg "to").getD .undefined
      match caps.sendMime toVal mime with
      | .error e =>
        (.error e, c, { loads := l, composed := [msg], dispatched := [(toVal, mime)] })
      | .ok body =>
        (.ok body, c, { loads := l, composed := [msg], dispatched := [(toVal, mime)] })

/-- How a call to `_sendMail` settles: a synchronous throw, a rejected
promise, or a fulfilled promise. -/
inductive SendOutcome where
  | thrown (e : String)
  | rejected (e : String)
  | resolved (v : JSVal)

/-- The observable result of a `_sendMail` call: how it settled, the cache
afterwards, and the boundary trace. -/
structure SendResult where
  outcome : SendOutcome
  cache : Cache
  trace : Trace

/-- `_sendMail` (lines 63-110): the synchronous phase, then the generator,
whose rejection is swallowed by `.catch(e => console.error(e))` — the
error is logged and the returned promise resolves with `undefined`. -/
def sendMail (caps : Capabilities) (a : Adapter) (cache : Cache)
    (opts : SendOptions) : SendResult :=
  match sendMailSync a opts with
  | .error e => { outcome := .thrown e, cache := cache, trace := {} }
  | .ok args =>
    match mailGenerator caps args cache with
    | (.error e, c, tr) =>
      { outcome := .resolved .undefined, cache := c,
        trace := { tr with logged := tr.logged ++ [e] } }
    | (.ok body, c, tr) =>
      { outcome := .resolved body, cache := c, trace := tr }

/-- `sendPasswordResetEmail` (lines 186-188). -/
def sendPasswordResetEmail (caps : Capabilities) (a : Adapter) (cache : Cache)
    (link appName : JSVal) (user : Option User) : SendResult :=
  sendMail caps a cache
    { templateName := .str "passwordResetEmail", link := link,
      appName := appName, user := user }

/-- `sendVerificationEmail` (lines 196-198). -/
def sendVerificationEmail (caps : Capabilities) (a : Adapter) (cache : Cache)
    (link appName : JSVal) (user : Option User) : SendResult :=
  sendMail caps a cache
    { templateName := .str "verificationEmail", link := link,
      appName := appName, user := user }

/-- `send` (lines 212-214): the generic direct-mode entry point. -/
def send (caps : Capabilities) (a : Adapter) (cache : Cache)
    (templateName subject fromAddress recipient : JSVal)
    («variables» extra : Option VarMap) : SendResult :=
  sendMail caps a cache
    { templateName := templateName, subject := subject,
      fromAddress := fromAddress, recipient := recipient,
      «variables» := «variables», extra := extra, direct := true }

/-! Helper lemmas about the association-list object model and the cache. -/

theorem getKey_cons (a : String) (b : JSVal) (l : VarMap) (k : String) :
    getKey ((a, b) :: l) k = if a = k then some b else getKey l k := by
  by_cases h : a = k
  · simp [getKey, List.find?, h]
  · have hb : (a == k) = false := beq_eq_false_iff_ne.mpr h
    simp [getKey, List.find?, hb, h]

theorem setKey_cons (a : String) (b : JSVal) (l : VarMap) (k : String) (v : JSVal) :
    setKey ((a, b) :: l) k v = if a = k then (k, v) :: l else (a, b) :: setKey l k v := by
  by_cases h : a = k
  · simp [setKey, h]
  · have hb : (a == k) = false := beq_eq_false_iff_ne.mpr h
    simp [setKey, hb, h]

theorem hasKey_eq_false (l : VarMap) (k : String) :
    hasKey l k = false ↔ k ∉ l.map Prod.fst := by
  rw [← Bool.not_eq_true]
  simp [hasKey, List.any_eq_true, List.mem_map]

theorem getKey_setKey_self (m : VarMap) (k : String) (v : JSVal) :
    getKey (setKey m k v) k = some v := by
  induction m with
  | nil => simp [setKey, getKey_cons]
  | cons p rest ih =>
    obtain ⟨a, b⟩ := p
    rw [setKey_cons]
    by_cases h : a = k
    · simp [h, getKey_cons]
    · rw [if_neg h, getKey_cons, if_neg h]
      exact ih

theorem getKey_setKey_ne (m : VarMap) (k k0 : String) (v : JSVal) (h : k0 ≠ k) :
    getKey (setKey m k v) k0 = getKey m k0 := by
  induction m with
  | nil =>
    rw [show setKey [] k v = [(k, v)] from rfl, getKey_cons,
      if_neg (fun hk => h hk.symm)]
  | cons p rest ih =>
    obtain ⟨a, b⟩ := p
    rw [setKey_cons]
    by_cases ha : a = k
    · subst ha
      rw [if_pos rfl, getKey_cons, getKey_cons, if_neg (fun hk => h hk.symm),
        if_neg (fun hk => h hk.symm)]
    · rw [if_neg ha, getKey_cons, getKey_cons]
      by_cases ha0 : a = k0
      · simp [ha0]
      · rw [if_neg ha0, if_neg ha0]
        exact ih

theorem getKey_assign_not_mem (ext : VarMap) (m : VarMap) (k : String)
    (h : hasKey ext k = false) : getKey (assign m ext) k = getKey m k := by
  induction ext generalizing m with
  | nil => simp [assign]
  | cons p rest ih =>
    obtain ⟨k1, v1⟩ := p
    have hne : k ≠ k1 := by
      intro hk
      rw [hasKey_eq_false] at h
      exact h (by simp [hk])
    have hrest : hasKey rest k = false := by
      rw [hasKey_eq_false] at h ⊢
      intro hmem
      exact h (by simp [hmem])
    rw [show assign m ((k1, v1) :: rest) = assign (setKey m k1 v1) rest from rfl,
      ih (setKey m k1 v1) hrest, getKey_setKey_ne _ _ _ _ hne]

theorem getKey_assign_mem : ∀ (ext m : VarMap) (k : String) (v : JSVal),
    (ext.map Prod.fst).Nodup → (k, v) ∈ ext → getKey (assign m ext) k = some v
  | [], _, _, _, _, hm => by simp at hm
  | (k1, v1) :: rest, m, k, v, hnd, hm => by
    simp only [List.map_cons, List.nodup_cons] at hnd
    rw [show assign m ((k1, v1) :: rest) = assign (setKey m k1 v1) rest from rfl]
    rcases List.mem_cons.mp hm with hh | ht
    · have hk : k = k1 := congrArg Prod.fst hh
      have hv : v = v1 := congrArg Prod.snd hh
      subst hk hv
      have hfalse : hasKey rest k = false := (hasKey_eq_false rest k).mpr hnd.1
      rw [getKey_assign_not_mem _ _ _ hfalse, getKey_setKey_self]
    · exact getKey_assign_mem rest (setKey m k1 v1) k v hnd.2 ht

theorem cacheGet_cons (a : String) (b : CacheEntry) (l : Cache) (k : String) :
    cacheGet ((a, b) :: l) k = if a = k then some b else cacheGet l k := by
  by_cases h : a = k
  · simp [cacheGet, List.find?, h]
  · have hb : (a == k) = false := beq_eq_false_iff_ne.mpr h
    simp [cacheGet, List.find?, hb, h]

theorem cacheSet_cons (a : String) (b : CacheEntry) (l : Cache) (k : String) (e : CacheEntry) :
    cacheSet ((a, b) :: l) k e = if a = k then (k, e) :: l else (a, b) :: cacheSet l k e := by
  by_cases h : a = k
  · simp [cacheSet, h]
  · have hb : (a == k) = false := beq_eq_false_iff_ne.mpr h
    simp [cacheSet, hb, h]

theorem cacheGet_cacheSet_self (c : Cache) (k : String) (e : CacheEntry) :
    cacheGet (cacheSet c k e) k = some e := by
  induction c with
  | nil => simp [cacheSet, cacheGet_cons]
  | cons p rest ih =>
    obtain ⟨a, b⟩ := p
    rw [cacheSet_cons]
    by_cases h : a = k
    · simp [h, cacheGet_cons]
    · rw [if_neg h, cacheGet_cons, if_neg h]
      exact ih

theorem cacheSet_cacheSet_self (c : Cache) (k : String) (e1 e2 : CacheEntry) :
    cacheSet (cacheSet c k e1) k e2 = cacheSet c k e2 := by
  induction c with
  | nil => simp [cacheSet]
  | cons p rest ih =>
    obtain ⟨a, b⟩ := p
    rw [cacheSet_cons]
    by_cases h : a = k
    · rw [if_pos h, cacheSet_cons, if_pos rfl, cacheSet_cons, if_pos h]
    · rw [if_neg h, cacheSet_cons, if_neg h, cacheSet_cons, if_neg h, ih]

theorem strHit_some (s : String) (h : s ≠ "") : strHit (some s) = some s := by
  simp [strHit, h]

/-! Fixtures used by the concrete witnesses. -/

/-- Capabilities whose external calls all fail; sufficient for witnesses that
never reach the asynchronous stages. -/
def capsNoop : Capabilities :=
  { fsRead := fun _ => .error "ENOENT"
    compose := fun _ => .error "unused"
    sendMime := fun _ _ => .error "unused" }

/-- A one-template adapter used by the synchronous-validation witnesses. -/
def adapterW : Adapter :=
  { fromAddress := .str "AwesomeApp <noreply@awesomeapp.com>"
    templates := [("customAlert",
      { subject := .str "Important notice", pathPlainText := .str "alert.txt" })] }

/-- C10: a call to the generic send entry point whose options carry a falsy
templateName throws synchronously with the message
"Invalid options object: missing templateName" — before any template lookup
or asynchronous work (the trace is empty), and that message is distinct from
every unknown-template "not found" message. -/
theorem C10_missing_templateName_throws_sync (caps : Capabilities) (a : Adapter)
    (cache : Cache) (templateName subject fromAddress recipient : JSVal)
    (vars extra : Option VarMap) (hfalsy : templateName.truthy = false) :
    send caps a cache templateName subject fromAddress recipient vars extra =
      { outcome := .thrown ERRORS.invalid_template_name, cache := cache, trace := {} } ∧
    (∀ s : String, ERRORS.invalid_template_name ≠ notFoundMsg s) := by
  constructor
  · simp [send, sendMail, sendMailSync, hfalsy]
  · intro s h
    have hd := congrArg String.data h
    rw [ERRORS.invalid_template_name, notFoundMsg] at hd
    rw [String.data_append] at hd
    have h1 : ("Invalid options object: missing templateName" : String).data
        = 'I' :: "nvalid options object: missing templateName".data := rfl
    have h2 : ("Could not find template with name " : String).data
        = 'C' :: "ould not find template with name ".data := rfl
    rw [h1, h2] at hd
    simp at hd

/-- C10 witness: the empty-string template name at concrete inputs. -/
theorem C10_witness :
    send capsNoop adapterW [] (.str "") .undefined .undefined (.str "r@x.com") none none =
      { outcome := .thrown ERRORS.invalid_template_name, cache := [], trace := {} } :=
  (C10_missing_templateName_throws_sync capsNoop adapterW [] (.str "") .undefined .undefined
    (.str "r@x.com") none none rfl).1

/-- C8: for every direct-mode send, an unknown template name fails
synchronously (empty trace: no asynchronous work) with the "not found"
error naming the template, and a known template without a recipient fails
synchronously with the missing-recipient error naming the template. -/
theorem C8_direct_validation_throws_sync (caps : Capabilities) (a : Adapter)
    (cache : Cache) (opts : SendOptions)
    (hdirect : opts.direct = true) (hname : opts.templateName.truthy = true) :
    (lookupTemplate a opts.templateName.toKeyString = none →
      sendMail caps a cache opts =
        { outcome := .thrown (notFoundMsg opts.templateName.toKeyString),
          cache := cache, trace := {} }) ∧
    (∀ t, lookupTemplate a opts.templateName.toKeyString = some t →
      opts.recipient.truthy = false →
      sendMail caps a cache opts =
        { outcome := .thrown (noRecipientMsg opts.templateName.toKeyString),
          cache := cache, trace := {} }) := by
  constructor
  · intro hnone
    simp [sendMail, sendMailSync, hname, hnone]
  · intro t hsome hrec
    simp [sendMail, sendMailSync, hname, hsome, hdirect, hrec]

/-- C8 witness: both validation failures at concrete inputs. -/
theorem C8_witness :
    sendMail capsNoop adapterW [] { templateName := .str "foo", direct := true } =
      { outcome := .thrown (notFoundMsg "foo"), cache := [], trace := {} } ∧
    sendMail capsNoop adapterW [] { templateName := .str "customAlert", direct := true } =
      { outcome := .thrown (noRecipientMsg "customAlert"), cache := [], trace := {} } :=
  ⟨(C8_direct_validation_throws_sync capsNoop adapterW []
      { templateName := .str "foo", direct := true } rfl rfl).1 rfl,
   (C8_direct_validation_throws_sync capsNoop adapterW []
      { templateName := .str "customAlert", direct := true } rfl rfl).2
     { subject := .str "Important notice", pathPlainText := .str "alert.txt" } rfl rfl⟩

/-- C7: when the enrichment callback returns a value that is not a plain
key/value mapping, the send does not fail on that account: the final
variable mapping equals the base mapping unchanged (the invalid result is
treated as the empty mapping by `_validateUserVars`). -/
theorem C7_invalid_enrichment_keeps_base (t : TemplateEntry) (user : Option User)
    (base : VarMap) (f : Option User → JSVal) (v : JSVal)
    (hcb : t.callback = .fn f) (hres : f user = v) (hv : v.isPlainObject = false) :
    resolveFinalVars t user base = base := by
  have h1 : resolveFinalVars t user base
      = assign base (MailgunAdapter.validateUserVars (f user)) := by
    unfold resolveFinalVars
    rw [hcb]
  rw [h1, hres]
  cases v <;> simp_all [JSVal.isPlainObject, MailgunAdapter.validateUserVars, assign]

/-- A descriptor whose callback returns a string (not a mapping). -/
def tmplBadCallback : TemplateEntry :=
  { subject := .str "S", pathPlainText := .str "p.txt",
    callback := .fn (fun _ => .str "oops") }

/-- C7 witness: a string-returning callback leaves the identity base
mapping unchanged. -/
theorem C7_witness :
    resolveFinalVars tmplBadCallback (some { username := "me", email := "me@foo.com" })
      [("link", .str "https://foo.com/"), ("appName", .str "AwesomeApp"),
       ("username", .str "me"), ("email", .str "me@foo.com")] =
      [("link", .str "https://foo.com/"), ("appName", .str "AwesomeApp"),
       ("username", .str "me"), ("email", .str "me@foo.com")] :=
  C7_invalid_enrichment_keeps_base tmplBadCallback
    (some { username := "me", email := "me@foo.com" }) _ _ (.str "oops") rfl rfl rfl

/-- C4 fixture: file system with the plain-text template of the scenario. -/
def caps4 : Capabilities :=
  { fsRead := fun p => if p = "reset.txt" then .ok "Hello {{username}}" else .error "ENOENT"
    compose := fun _ => .ok "MIME-document"
    sendMime := fun _ _ => .ok (.obj [("ok", .bool true)]) }

/-- C4 fixture: the password-reset template descriptor of the scenario. -/
def tmpl4 : TemplateEntry :=
  { subject := .str "Reset your password", pathPlainText := .str "reset.txt" }

/-- C4 fixture: adapter configured with the scenario's template. -/
def adapter4 : Adapter :=
  { fromAddress := .str "App <noreply@app.com>"
    templates := [("passwordResetEmail", tmpl4)] }

/-- C4 fixture: the outgoing message the scenario produces. -/
def msg4 : VarMap :=
  [("from", .str "App <noreply@app.com>"), ("to", .str "a@b.com"),
   ("subject", .str "Reset your password"), ("text", .str "Hello alice")]

/-- C4: with a template `{subject: "Reset your password", pathPlainText:
<file containing "Hello {{username}}">}`, the password-reset entry point
invoked with link "http://x", appName "App", and user alice/a@b.com hands
the MIME composer exactly one outgoing message, whose rendered text is
"Hello alice", whose `to` is "a@b.com", whose `from` is the adapter's
configured fromAddress, and whose `subject` is the descriptor subject. -/
theorem C4_password_reset_end_to_end :
    (sendPasswordResetEmail caps4 adapter4 [] (.str "http://x") (.str "App")
        (some { username := "alice", email := "a@b.com" })).trace.composed = [msg4] ∧
    getKey msg4 "text" = some (.str "Hello alice") ∧
    getKey msg4 "to" = some (.str "a@b.com") ∧
    getKey msg4 "from" = some adapter4.fromAddress ∧
    getKey msg4 "subject" = some tmpl4.subject :=
  ⟨rfl, rfl, rfl, rfl, rfl⟩

/-- C6: for every identity-mode send whose resolved template has an
enrichment callback returning a plain mapping, the final variable mapping
is the base mapping overwritten by the callback result (the callback value
wins on every key it supplies), and the base mapping is exactly
{link, appName, username, email} drawn from the request and the user. -/
theorem C6_enrichment_overrides_base (a : Adapter) (opts : SendOptions)
    (args : MailArgs) (f : Option User → JSVal) (fields : VarMap)
    (hdirect : opts.direct = false)
    (hsync : sendMailSync a opts = .ok args)
    (hcb : args.template.callback = .fn f)
    (hres : f args.user = .obj fields)
    (hnd : (fields.map Prod.fst).Nodup) :
    resolveFinalVars args.template args.user args.templateVars
      = assign args.templateVars fields ∧
    (∀ k v, (k, v) ∈ fields →
      getKey (resolveFinalVars args.template args.user args.templateVars) k = some v) ∧
    (∃ u : User, opts.user = some u ∧ args.templateVars =
      [("link", opts.link), ("appName", opts.appName),
       ("username", u.get "username"), ("email", u.get "email")]) := by
  have h1 : resolveFinalVars args.template args.user args.templateVars
      = assign args.templateVars (MailgunAdapter.validateUserVars (f args.user)) := by
    unfold resolveFinalVars
    rw [hcb]
  have h2 : resolveFinalVars args.template args.user args.templateVars
      = assign args.templateVars fields := by
    rw [h1, hres]
    simp [MailgunAdapter.validateUserVars]
  refine ⟨h2, ?_, ?_⟩
  · intro k v hm
    rw [h2]
    exact getKey_assign_mem fields args.templateVars k v hnd hm
  · by_cases ht : opts.templateName.truthy
    · simp only [sendMailSync, ht, Bool.not_true, Bool.false_eq_true, if_false, hdirect] at hsync
      split at hsync
      · exact absurd hsync (by simp)
      · split at hsync
        · exact absurd hsync (by simp)
        · rename_i u hu
          rw [Except.ok.injEq] at hsync
          subst hsync
          exact ⟨u, hu, rfl⟩
    · simp [sendMailSync, ht] at hsync

/-- C6 fixture: a descriptor whose callback supplies `appName` = "X". -/
def tmplCb : TemplateEntry :=
  { subject := .str "S", pathPlainText := .str "p.txt",
    callback := .fn (fun _ => .obj [("appName", .str "X")]) }

/-- C6 fixture: adapter configured with `tmplCb`. -/
def adapterCb : Adapter :=
  { fromAddress := .str "f@x", templates := [("verificationEmail", tmplCb)] }

/-- C6 fixture: an identity-mode request whose base `appName` is "Base". -/
def optsCb : SendOptions :=
  { templateName := .str "verificationEmail", link := .str "L",
    appName := .str "Base",
    user := some { username := "alice", email := "a@b.com" } }

/-- C6 fixture: the `args` record `_sendMail` builds for `optsCb`. -/
def argsCb : MailArgs :=
  { templateVars := [("link", .str "L"), ("appName", .str "Base"),
      ("username", .str "alice"), ("email", .str "a@b.com")]
    message := [("from", .str "f@x"), ("to", .str "a@b.com"), ("subject", .str "S")]
    templateName := "verificationEmail"
    template := tmplCb
    user := some { username := "alice", email := "a@b.com" } }

/-- C6 witness: an enrichment-provided `appName` "X" overrides the base
`appName` "Base". -/
theorem C6_witness :
    getKey (resolveFinalVars argsCb.template argsCb.user argsCb.templateVars) "appName"
      = some (.str "X") :=
  (C6_enrichment_overrides_base adapterCb optsCb argsCb
      (fun _ => .obj [("appName", .str "X")]) [("appName", .str "X")]
      rfl rfl rfl rfl (by decide)).2.1
    "appName" (.str "X") (List.mem_cons_self _ _)

/-- C1 fixture: capabilities whose MIME composer fails. -/
def capsComposeFail : Capabilities :=
  { fsRead := fun _ => .ok "body"
    compose := fun _ => .error "Composing message failed"
    sendMime := fun _ _ => .ok .undefined }

/-- C1 fixture: a direct-mode request for `adapterW`'s template. -/
def optsC1 : SendOptions :=
  { templateName := .str "customAlert", direct := true, recipient := .str "to@x.com" }

/-- C1 fixture: the message the pipeline hands the failing composer. -/
def msgC1 : VarMap :=
  [("from", .str "AwesomeApp <noreply@awesomeapp.com>"), ("to", .str "to@x.com"),
   ("subject", .str "Important notice"), ("text", .str "body")]

/-- C1 counterexample: in a direct-mode send whose MIME composer fails, the
returned promise does NOT reject with the composer error — it resolves with
`undefined` and the error is merely logged via `console.error`. -/
theorem C1_counterexample :
    (sendMail capsComposeFail adapterW [] optsC1).outcome = .resolved .undefined ∧
    (sendMail capsComposeFail adapterW [] optsC1).trace.logged =
      ["Composing message failed"] :=
  ⟨rfl, rfl⟩

/-- C1 (amended): for every direct-mode send in which an asynchronous stage
fails (in particular the MIME composer), the trailing
`.catch(e => console.error(e))` swallows the rejection: the stage's error is
logged and the promise returned to the caller resolves with `undefined`. -/
theorem C1_async_failure_logged_not_rejected (caps : Capabilities) (a : Adapter)
    (cache : Cache) (opts : SendOptions) (args : MailArgs) (e : String)
    (c : Cache) (tr : Trace)
    (hdirect : opts.direct = true)
    (hsync : sendMailSync a opts = .ok args)
    (hgen : mailGenerator caps args cache = (.error e, c, tr)) :
    sendMail caps a cache opts =
      { outcome := .resolved .undefined, cache := c,
        trace := { tr with logged := tr.logged ++ [e] } } := by
  simp [sendMail, hsync, hgen]

/-- C1 fixture: the `args` record `_sendMail` builds for `optsC1`. -/
def argsC1 : MailArgs :=
  { templateVars := []
    message := [("from", .str "AwesomeApp <noreply@awesomeapp.com>"),
      ("to", .str "to@x.com"), ("subject", .str "Important notice")]
    templateName := "customAlert"
    template := { subject := .str "Important notice", pathPlainText := .str "alert.txt" }
    user := none }

/-- C1 witness: the amended behaviour at the counterexample's input. -/
theorem C1_witness :
    sendMail capsComposeFail adapterW [] optsC1 =
      { outcome := .resolved .undefined
        cache := [("customAlert", { text := some "body" })]
        trace := { loads := ["alert.txt"], composed := [msgC1],
                   logged := ["Composing message failed"] } } :=
  C1_async_failure_logged_not_rejected capsComposeFail adapterW [] optsC1 argsC1
    "Composing message failed" [("customAlert", { text := some "body" })]
    { loads := ["alert.txt"], composed := [msgC1] } rfl rfl rfl

/-- C2 fixture: capabilities whose template file renders `{\x7b appName \x7d}`. -/
def capsC2 : Capabilities :=
  { fsRead := fun _ => .ok "{{appName}}"
    compose := fun _ => .ok "MIME"
    sendMime := fun _ _ => .ok .null }

/-- C2 fixture: a descriptor with an enrichment callback supplying
`appName` = "X". -/
def tmplC2 : TemplateEntry :=
  { subject := .str "S", pathPlainText := .str "c.txt",
    callback := .fn (fun _ => .obj [("appName", .str "X")]) }

/-- C2 fixture: adapter configured with `tmplC2`. -/
def adapterC2 : Adapter :=
  { fromAddress := .str "f@x", templates := [("customEmailWithCallback", tmplC2)] }

/-- C2: evaluation at the failing input — a direct-mode send with
caller-supplied variables `{}` against a descriptor that has an enrichment
callback. Contrary to the claim (and to the README, which restricts the
callback to the identity use cases), `_mailGenerator` invokes the callback
(with the undefined user) and merges its result over the caller variables:
the mapping reaching the renderer is `{appName: "X"}`, not `{}`, and the
rendered text is "X". -/
theorem C2_direct_mode_merges_callback_result :
    resolveFinalVars tmplC2 none [] = [("appName", .str "X")] ∧
    (send capsC2 adapterC2 [] (.str "customEmailWithCallback") .undefined .undefined
        (.str "to@x") (some []) none).trace.composed =
      [[("from", .str "f@x"), ("to", .str "to@x"), ("subject", .str "S"),
        ("text", .str "X")]] :=
  ⟨rfl, rfl⟩

/-- C3 fixture: capabilities that let a send run to completion. -/
def capsC3 : Capabilities :=
  { fsRead := fun _ => .ok "body"
    compose := fun _ => .ok "MIME"
    sendMime := fun _ _ => .ok (.str "sent") }

/-- C3 fixture: adapter whose template's subject is the empty string (a
string, so construction accepts it, but falsy, so no subject fallback
exists). -/
def adapterC3 : Adapter :=
  { fromAddress := .str "f@x"
    templates := [("customAlert", { subject := .str "", pathPlainText := .str "p.txt" })] }

/-- C3 fixture: a direct-mode request with no subject. -/
def optsC3 : SendOptions :=
  { templateName := .str "customAlert", direct := true, recipient := .str "r@x" }

/-- C3 counterexample: a direct-mode send with no explicit subject and no
(truthy) descriptor subject does NOT fail — it runs to completion and the
outgoing message carries the empty subject. The subject requirement the
claim describes exists only in an older compiled variant of the adapter. -/
theorem C3_counterexample :
    (sendMail capsC3 adapterC3 [] optsC3).outcome = .resolved (.str "sent") ∧
    (sendMail capsC3 adapterC3 [] optsC3).trace.composed =
      [[("from", .str "f@x"), ("to", .str "r@x"), ("subject", .str ""),
        ("text", .str "body")]] :=
  ⟨rfl, rfl⟩

/-- C3 (amended): for every direct-mode send with a known template, a
missing recipient fails synchronously with a descriptive error naming the
template; there is no subject requirement — with a truthy recipient the
synchronous phase succeeds and the message subject is
`subject || template.subject` (possibly falsy), exactly as built at
lines 85-89. -/
theorem C3_recipient_required_subject_not (caps : Capabilities) (a : Adapter)
    (cache : Cache) (opts : SendOptions) (t : TemplateEntry)
    (hdirect : opts.direct = true)
    (hname : opts.templateName.truthy = true)
    (hlook : lookupTemplate a opts.templateName.toKeyString = some t) :
    (opts.recipient.truthy = false →
      sendMail caps a cache opts =
        { outcome := .thrown (noRecipientMsg opts.templateName.toKeyString),
          cache := cache, trace := {} }) ∧
    (opts.recipient.truthy = true →
      sendMailSync a opts = .ok {
        templateVars := opts.«variables».getD []
        message := assign
          [("from", jsOr opts.fromAddress a.fromAddress),
           ("to", opts.recipient),
           ("subject", jsOr opts.subject t.subject)]
          (opts.extra.getD [])
        templateName := opts.templateName.toKeyString
        template := t
        user := none }) := by
  constructor
  · intro hrec
    simp [sendMail, sendMailSync, hname, hlook, hdirect, hrec]
  · intro hrec
    simp [sendMailSync, hname, hlook, hdirect, hrec]

/-- C3 witness: both halves at concrete inputs — the missing-recipient
throw, and the subject-free success with empty descriptor subject. -/
theorem C3_witness :
    sendMail capsC3 adapterC3 [] { templateName := .str "customAlert", direct := true } =
      { outcome := .thrown (noRecipientMsg "customAlert"), cache := [], trace := {} } ∧
    sendMailSync adapterC3 optsC3 = .ok {
      templateVars := []
      message := [("from", .str "f@x"), ("to", .str "r@x"), ("subject", .str "")]
      templateName := "customAlert"
      template := { subject := .str "", pathPlainText := .str "p.txt" }
      user := none } :=
  ⟨(C3_recipient_required_subject_not capsC3 adapterC3 []
      { templateName := .str "customAlert", direct := true }
      { subject := .str "", pathPlainText := .str "p.txt" } rfl rfl rfl).1 rfl,
   (C3_recipient_required_subject_not capsC3 adapterC3 [] optsC3
      { subject := .str "", pathPlainText := .str "p.txt" } rfl rfl rfl).2 rfl⟩

/-- With a prefix of valid entries, the constructor loop's verdict is
decided by the first remaining entry. -/
theorem templatesError_append (pre : List (String × TemplateEntry)) (nm : String)
    (t : TemplateEntry) (post : List (String × TemplateEntry))
    (hpre : ∀ p ∈ pre, entryError p.2 = none) :
    templatesError (pre ++ (nm, t) :: post) =
      match entryError t with
      | some e => some e
      | none => templatesError post := by
  induction pre with
  | nil => rfl
  | cons p rest ih =>
    obtain ⟨a, b⟩ := p
    have hb : entryError b = none := hpre (a, b) (by simp)
    rw [List.cons_append]
    show (match entryError b with
      | some e => some e
      | none => templatesError (rest ++ (nm, t) :: post)) = _
    rw [hb]
    exact ih (fun p hp => hpre p (by simp [hp]))

/-- A loop that reports no error validated every entry. -/
theorem templatesError_none_forall (ts : List (String × TemplateEntry))
    (h : templatesError ts = none) : ∀ p ∈ ts, entryError p.2 = none := by
  induction ts with
  | nil => simp
  | cons p rest ih =>
    obtain ⟨a, b⟩ := p
    intro q hq
    have hsplit : entryError b = none ∧ templatesError rest = none := by
      rcases he : entryError b with _ | e
      · constructor
        · rfl
        · have : templatesError ((a, b) :: rest) = templatesError rest := by
            show (match entryError b with
              | some e => some e
              | none => templatesError rest) = _
            rw [he]
          rw [← this]
          exact h
      · exfalso
        have : templatesError ((a, b) :: rest) = some e := by
          show (match entryError b with
            | some e => some e
            | none => templatesError rest) = _
          rw [he]
        rw [h] at this
        exact Option.noConfusion this
    rcases List.mem_cons.mp hq with hh | hr
    · rw [hh]
      exact hsplit.1
    · exact ih hsplit.2 q hr

/-- C9: construction fails fast — missing apiKey/domain/fromAddress yields
the mailgun-settings error; an absent or empty templates map yields the
template-configuration error; the first malformed entry (non-string subject
or plain-text path) yields the template-configuration error; the first
entry whose callback is truthy but not a function yields the
invalid-callback error; and no configuration containing a malformed entry
ever produces an adapter instance. -/
theorem C9_construction_fails_fast :
    (∀ cfg : Config,
      (cfg.apiKey.truthy = false ∨ cfg.domain.truthy = false ∨ cfg.fromAddress.truthy = false) →
      MailgunAdapter.construct (some cfg) = .error ERRORS.missing_mailgun_settings) ∧
    (∀ cfg : Config, cfg.apiKey.truthy = true → cfg.domain.truthy = true →
      cfg.fromAddress.truthy = true →
      (cfg.templates = none ∨ cfg.templates = some []) →
      MailgunAdapter.construct (some cfg) = .error ERRORS.bad_template_config) ∧
    (∀ (cfg : Config) (pre post : List (String × TemplateEntry)) (nm : String)
        (t : TemplateEntry),
      cfg.apiKey.truthy = true → cfg.domain.truthy = true → cfg.fromAddress.truthy = true →
      cfg.templates = some (pre ++ (nm, t) :: post) →
      (∀ p ∈ pre, entryError p.2 = none) →
      (t.subject.isString && t.pathPlainText.isString) = false →
      MailgunAdapter.construct (some cfg) = .error ERRORS.bad_template_config) ∧
    (∀ (cfg : Config) (pre post : List (String × TemplateEntry)) (nm : String)
        (t : TemplateEntry),
      cfg.apiKey.truthy = true → cfg.domain.truthy = true → cfg.fromAddress.truthy = true →
      cfg.templates = some (pre ++ (nm, t) :: post) →
      (∀ p ∈ pre, entryError p.2 = none) →
      (t.subject.isString && t.pathPlainText.isString) = true →
      t.callback.truthy = true → t.callback.isFunction = false →
      MailgunAdapter.construct (some cfg) = .error ERRORS.invalid_callback) ∧
    (∀ (cfg : Config) (ts : List (String × TemplateEntry)) (nm : String)
        (t : TemplateEntry) (ad : Adapter),
      cfg.templates = some ts → (nm, t) ∈ ts → entryError t ≠ none →
      MailgunAdapter.construct (some cfg) ≠ .ok ad) := by
  refine ⟨?_, ?_, ?_, ?_, ?_⟩
  · intro cfg h
    rcases h with h | h | h <;> simp [MailgunAdapter.construct, h]
  · intro cfg h1 h2 h3 h4
    rcases h4 with h4 | h4 <;> simp [MailgunAdapter.construct, h1, h2, h3, h4, List.isEmpty]
  · intro cfg pre post nm t h1 h2 h3 hts hpre hbad
    have hne : (pre ++ (nm, t) :: post).isEmpty = false := by
      cases pre <;> simp [List.isEmpty]
    have herr : templatesError (pre ++ (nm, t) :: post) = some ERRORS.bad_template_config := by
      rw [templatesError_append pre nm t post hpre]
      simp [entryError, hbad]
    simp [MailgunAdapter.construct, h1, h2, h3, hts, hne, herr]
  · intro cfg pre post nm t h1 h2 h3 hts hpre hgood htr hfn
    have hne : (pre ++ (nm, t) :: post).isEmpty = false := by
      cases pre <;> simp [List.isEmpty]
    have herr : templatesError (pre ++ (nm, t) :: post) = some ERRORS.invalid_callback := by
      rw [templatesError_append pre nm t post hpre]
      simp [entryError, hgood, htr, hfn]
    simp [MailgunAdapter.construct, h1, h2, h3, hts, hne, herr]
  · intro cfg ts nm t ad hts hmem hne hok
    simp only [MailgunAdapter.construct] at hok
    split at hok
    · exact Except.noConfusion hok
    · rw [hts] at hok
      split at hok
      · rename_i heq
        exact Option.noConfusion heq
      · rename_i ts2 heq
        obtain rfl : ts = ts2 := Option.some.inj heq
        split at hok
        · exact Except.noConfusion hok
        · split at hok
          · exact Except.noConfusion hok
          · rename_i hnone
            exact hne (templatesError_none_forall ts hnone (nm, t) hmem)

/-- C9 fixture: configuration with no apiKey. -/
def cfgNoKey : Config := { domain := .str ".", fromAddress := .str "." }

/-- C9 fixture: configuration with an empty templates map. -/
def cfgEmptyTemplates : Config :=
  { apiKey := .str ".", domain := .str ".", fromAddress := .str ".",
    templates := some [] }

/-- C9 fixture: a template entry whose callback is a truthy non-function. -/
def tmplBadCbEntry : TemplateEntry :=
  { subject := .str "Reset your password", pathPlainText := .str ".",
    callback := .value (.obj []) }

/-- C9 fixture: configuration containing `tmplBadCbEntry`. -/
def cfgBadCallback : Config :=
  { apiKey := .str ".", domain := .str ".", fromAddress := .str ".",
    templates := some [("passwordResetEmail", tmplBadCbEntry)] }

/-- C9 witness: the three failure classes at concrete configurations. -/
theorem C9_witness :
    MailgunAdapter.construct (some cfgNoKey) = .error ERRORS.missing_mailgun_settings ∧
    MailgunAdapter.construct (some cfgEmptyTemplates) = .error ERRORS.bad_template_config ∧
    MailgunAdapter.construct (some cfgBadCallback) = .error ERRORS.invalid_callback :=
  ⟨C9_construction_fails_fast.1 cfgNoKey (Or.inl rfl),
   (C9_construction_fails_fast.2.1) cfgEmptyTemplates rfl rfl rfl (Or.inr rfl),
   (C9_construction_fails_fast.2.2.2.1) cfgBadCallback [] [] "passwordResetEmail"
     tmplBadCbEntry rfl rfl rfl rfl (by simp) rfl rfl rfl⟩

/-- Re-writing the entry already stored at a key leaves the cache unchanged. -/
theorem cacheSet_get_self (c : Cache) (k : String) (e : CacheEntry)
    (h : cacheGet c k = some e) : cacheSet c k e = c := by
  induction c with
  | nil => simp [cacheGet] at h
  | cons p rest ih =>
    obtain ⟨a, b⟩ := p
    rw [cacheGet_cons] at h
    rw [cacheSet_cons]
    by_cases ha : a = k
    · rw [if_pos ha] at h ⊢
      obtain rfl : b = e := Option.some.inj h
      rw [ha]
    · rw [if_neg ha] at h ⊢
      rw [ih h]

/-- Unfolding of `buildMessage` when the plain-text body is a cache hit. -/
theorem buildMessage_text_hit (fs : String → Except String String) (t : TemplateEntry)
    (name : String) (vars msg : VarMap) (cache : Cache) (ce : CacheEntry) (txt : String)
    (hce : (cacheGet cache name).getD {} = ce)
    (hx : strHit ce.text = some txt) :
    buildMessage fs t name vars msg cache =
      buildHtml fs t name vars (setKey msg "text" (.str (Mustache.render txt vars)))
        (cacheSet cache name ce) ce [] := by
  simp only [buildMessage]
  rw [hce, hx]

/-- Unfolding of `buildMessage` when the plain-text load fails. -/
theorem buildMessage_text_miss_err (fs : String → Except String String) (t : TemplateEntry)
    (name : String) (vars msg : VarMap) (cache : Cache) (ce : CacheEntry) (e : String)
    (hce : (cacheGet cache name).getD {} = ce)
    (hx : strHit ce.text = none)
    (hz : fs t.pathPlainText.toKeyString = .error e) :
    buildMessage fs t name vars msg cache =
      (.error e, cacheSet cache name ce, [t.pathPlainText.toKeyString]) := by
  simp only [buildMessage]
  rw [hce, hx, hz]

/-- Unfolding of `buildMessage` when the plain-text body is loaded fresh. -/
theorem buildMessage_text_miss_ok (fs : String → Except String String) (t : TemplateEntry)
    (name : String) (vars msg : VarMap) (cache : Cache) (ce : CacheEntry) (raw : String)
    (hce : (cacheGet cache name).getD {} = ce)
    (hx : strHit ce.text = none)
    (hz : fs t.pathPlainText.toKeyString = .ok raw) :
    buildMessage fs t name vars msg cache =
      buildHtml fs t name vars (setKey msg "text" (.str (Mustache.render raw vars)))
        (cacheSet cache name { ce with text := some raw })
        { ce with text := some raw }
        [t.pathPlainText.toKeyString] := by
  simp only [buildMessage]
  rw [hce, hx, hz]

/-- Unfolding of `buildHtml` when the descriptor has no HTML path. -/
theorem buildHtml_no_html (fs : String → Except String String) (t : TemplateEntry)
    (name : String) (vars msg : VarMap) (cache : Cache) (ce : CacheEntry)
    (loads : List String) (hh : t.pathHtml.truthy = false) :
    buildHtml fs t name vars msg cache ce loads =
      (.ok (assign msg (t.extra.getD [])), cache, loads) := by
  simp only [buildHtml]
  rw [hh]
  simp

/-- Unfolding of `buildHtml` when the HTML body is a cache hit. -/
theorem buildHtml_hit (fs : String → Except String String) (t : TemplateEntry)
    (name : String) (vars msg : VarMap) (cache : Cache) (ce : CacheEntry)
    (loads : List String) (h : String)
    (hh : t.pathHtml.truthy = true) (hy : strHit ce.html = some h) :
    buildHtml fs t name vars msg cache ce loads =
      (.ok (assign (setKey msg "html" (.str (Mustache.render h vars))) (t.extra.getD [])),
       cache, loads) := by
  simp only [buildHtml]
  rw [hh, hy]
  simp

/-- Unfolding of `buildHtml` when the HTML load fails. -/
theorem buildHtml_miss_err (fs : String → Except String String) (t : TemplateEntry)
    (name : String) (vars msg : VarMap) (cache : Cache) (ce : CacheEntry)
    (loads : List String) (e : String)
    (hh : t.pathHtml.truthy = true) (hy : strHit ce.html = none)
    (hz : fs t.pathHtml.toKeyString = .error e) :
    buildHtml fs t name vars msg cache ce loads =
      (.error e, cache, loads ++ [t.pathHtml.toKeyString]) := by
  simp only [buildHtml]
  rw [hh, hy, hz]
  simp

/-- Unfolding of `buildHtml` when the HTML body is loaded fresh. -/
theorem buildHtml_miss_ok (fs : String → Except String String) (t : TemplateEntry)
    (name : String) (vars msg : VarMap) (cache : Cache) (ce : CacheEntry)
    (loads : List String) (raw : String)
    (hh : t.pathHtml.truthy = true) (hy : strHit ce.html = none)
    (hz : fs t.pathHtml.toKeyString = .ok raw) :
    buildHtml fs t name vars msg cache ce loads =
      (.ok (assign (setKey msg "html" (.str (Mustache.render raw vars))) (t.extra.getD [])),
       cacheSet cache name { ce with html := some raw },
       loads ++ [t.pathHtml.toKeyString]) := by
  simp only [buildHtml]
  rw [hh, hy, hz]
  simp

/-- After a successful body build whose stored bodies are truthy, re-running
from the resulting cache is load-free and reproduces the same message. -/
theorem buildHtml_then_stable (fs : String → Except String String) (t : TemplateEntry)
    (name : String) (vars msg : VarMap) (cache : Cache) (ce : CacheEntry)
    (txt : String) (L : List String) (m : VarMap) (c1 : Cache) (l1 : List String)
    (hfs : ∀ p s, fs p = .ok s → s ≠ "")
    (htxt : strHit ce.text = some txt)
    (h : buildHtml fs t name vars (setKey msg "text" (.str (Mustache.render txt vars)))
          (cacheSet cache name ce) ce L = (.ok m, c1, l1)) :
    buildMessage fs t name vars msg c1 = (.ok m, c1, []) := by
  rcases hh : t.pathHtml.truthy with _ | _
  · rw [buildHtml_no_html fs t name vars _ _ ce L hh] at h
    simp only [Prod.mk.injEq, Except.ok.injEq] at h
    obtain ⟨hm, hc, _⟩ := h
    subst hm
    subst hc
    rw [buildMessage_text_hit fs t name vars msg _ ce txt
      (by rw [cacheGet_cacheSet_self]; rfl) htxt]
    rw [buildHtml_no_html fs t name vars _ _ ce [] hh]
    rw [cacheSet_cacheSet_self]
  · rcases hy : strHit ce.html with _ | hb
    · rcases hz : fs t.pathHtml.toKeyString with e | raw2
      · rw [buildHtml_miss_err fs t name vars _ _ ce L e hh hy hz] at h
        simp at h
      · have hraw2 : raw2 ≠ "" := hfs _ _ hz
        rw [buildHtml_miss_ok fs t name vars _ _ ce L raw2 hh hy hz] at h
        simp only [Prod.mk.injEq, Except.ok.injEq] at h
        obtain ⟨hm, hc, _⟩ := h
        rw [cacheSet_cacheSet_self] at hc
        subst hm
        subst hc
        rw [buildMessage_text_hit fs t name vars msg _ { ce with html := some raw2 } txt
          (by rw [cacheGet_cacheSet_self]; rfl) htxt]
        rw [buildHtml_hit fs t name vars _ _ { ce with html := some raw2 } [] raw2 hh
          (strHit_some raw2 hraw2)]
        rw [cacheSet_cacheSet_self]
    · rw [buildHtml_hit fs t name vars _ _ ce L hb hh hy] at h
      simp only [Prod.mk.injEq, Except.ok.injEq] at h
      obtain ⟨hm, hc, _⟩ := h
      subst hm
      subst hc
      rw [buildMessage_text_hit fs t name vars msg _ ce txt
        (by rw [cacheGet_cacheSet_self]; rfl) htxt]
      rw [buildHtml_hit fs t name vars _ _ ce [] hb hh hy]
      rw [cacheSet_cacheSet_self]

/-- A successful `buildMessage` run is stable: re-running from the cache it
produced performs no loads and returns the identical message and cache
(provided every loaded body is non-empty, see the C5 counterexample). -/
theorem buildMessage_stable (fs : String → Except String String) (t : TemplateEntry)
    (name : String) (vars msg : VarMap) (cache : Cache) (m : VarMap)
    (c1 : Cache) (l1 : List String)
    (hfs : ∀ p s, fs p = .ok s → s ≠ "")
    (h : buildMessage fs t name vars msg cache = (.ok m, c1, l1)) :
    buildMessage fs t name vars msg c1 = (.ok m, c1, []) := by
  rcases hx : strHit ((cacheGet cache name).getD {}).text with _ | txt
  · rcases hz : fs t.pathPlainText.toKeyString with e | raw
    · rw [buildMessage_text_miss_err fs t name vars msg cache _ e rfl hx hz] at h
      simp at h
    · have hraw : raw ≠ "" := hfs _ _ hz
      rw [buildMessage_text_miss_ok fs t name vars msg cache _ raw rfl hx hz] at h
      exact buildHtml_then_stable fs t name vars msg cache _ raw _ m c1 l1 hfs
        (strHit_some raw hraw) h
  · rw [buildMessage_text_hit fs t name vars msg cache _ txt rfl hx] at h
    exact buildHtml_then_stable fs t name vars msg cache _ txt _ m c1 l1 hfs hx h

/-- C5 fixture: adapter with one template at path "t.txt". -/
def adapterC5 : Adapter :=
  { fromAddress := .str "f@x"
    templates := [("customAlert", { subject := .str "S", pathPlainText := .str "t.txt" })] }

/-- C5 fixture: a direct-mode request for `adapterC5`'s template. -/
def optsC5 : SendOptions :=
  { templateName := .str "customAlert", direct := true, recipient := .str "r@x" }

/-- C5 fixture: a file system whose template file is empty. -/
def capsC5Empty : Capabilities :=
  { fsRead := fun _ => .ok ""
    compose := fun _ => .ok "MIME"
    sendMime := fun _ _ => .ok .null }

/-- C5 counterexample: with an empty template file, the first send populates
the cache with the (falsy) empty body, yet the second send re-invokes the
file-load operation — the cache test `!cachedTemplate['text']` treats the
stored empty string as absent, so the claim's "the second send does not
invoke the file-load operation again" fails. -/
theorem C5_counterexample :
    (sendMail capsC5Empty adapterC5 [] optsC5).cache =
      [("customAlert", { text := some "" })] ∧
    (sendMail capsC5Empty adapterC5 [] optsC5).trace.loads = ["t.txt"] ∧
    (sendMail capsC5Empty adapterC5 [("customAlert", { text := some "" })]
        optsC5).trace.loads = ["t.txt"] :=
  ⟨rfl, rfl, rfl⟩

/-- C5 (amended): for every send whose body build succeeds, provided every
successfully loaded body is a non-empty string (JS truthiness — an empty
body defeats the cache test and is re-read, see the counterexample), a
second send of the same template with the same variables from the first
send's cache invokes no file loads, hands the composer the identical
message, and leaves the cache unchanged. -/
theorem C5_second_send_cached_and_identical (caps : Capabilities) (a : Adapter)
    (cache : Cache) (opts : SendOptions) (args : MailArgs) (m : VarMap)
    (c1 : Cache) (l1 : List String)
    (hfs : ∀ p s, caps.fsRead p = .ok s → s ≠ "")
    (hsync : sendMailSync a opts = .ok args)
    (hbuild : buildMessage caps.fsRead args.template args.templateName
        (resolveFinalVars args.template args.user args.templateVars)
        args.message cache = (.ok m, c1, l1)) :
    (sendMail caps a cache opts).cache = c1 ∧
    (sendMail caps a cache opts).trace.composed = [m] ∧
    (sendMail caps a cache opts).trace.loads = l1 ∧
    (sendMail caps a c1 opts).trace.loads = [] ∧
    (sendMail caps a c1 opts).trace.composed = [m] ∧
    (sendMail caps a c1 opts).cache = c1 := by
  have h2 := buildMessage_stable caps.fsRead args.template args.templateName
    (resolveFinalVars args.template args.user args.templateVars)
    args.message cache m c1 l1 hfs hbuild
  simp only [sendMail, hsync, mailGenerator, hbuild, h2]
  rcases hc : caps.compose m with e | mime
  · simp [hc]
  · rcases hs : caps.sendMime ((getKey m "to").getD .undefined) mime with e2 | body
    · simp [hc, hs]
    · simp [hc, hs]

/-- C5 fixture: a file system with a non-empty template body. -/
def capsC5w : Capabilities :=
  { fsRead := fun _ => .ok "body {{x}}"
    compose := fun _ => .ok "MIME"
    sendMime := fun _ _ => .ok .null }

/-- C5 fixture: the `args` record for `optsC5` on `adapterC5`. -/
def argsC5w : MailArgs :=
  { templateVars := []
    message := [("from", .str "f@x"), ("to", .str "r@x"), ("subject", .str "S")]
    templateName := "customAlert"
    template := { subject := .str "S", pathPlainText := .str "t.txt" }
    user := none }

/-- C5 fixture: the message both sends hand the composer. -/
def msgC5w : VarMap :=
  [("from", .str "f@x"), ("to", .str "r@x"), ("subject", .str "S"),
   ("text", .str "body ")]

/-- C5 fixture: the cache after the first send. -/
def cacheC5w : Cache := [("customAlert", { text := some "body {{x}}" })]

/-- C5 witness: with a non-empty body, the second send is load-free and
composes the identical message. -/
theorem C5_witness :
    (sendMail capsC5w adapterC5 [] optsC5).cache = cacheC5w ∧
    (sendMail capsC5w adapterC5 cacheC5w optsC5).trace.loads = [] ∧
    (sendMail capsC5w adapterC5 cacheC5w optsC5).trace.composed = [msgC5w] :=
  have h := C5_second_send_cached_and_identical capsC5w adapterC5 [] optsC5
    argsC5w msgC5w cacheC5w ["t.txt"]
    (fun _ s hs => by injection hs with h2; subst h2; decide) rfl rfl
  ⟨h.1, h.2.2.2.1, h.2.2.2.2.1⟩
